import Mathlib

/-!
Verification of `targets/Linux/plc_Linux_main.c` (beremiz Linux PLC runtime
glue) against its natural-language specification.

The C file is straight-line systems code: an atomic compare-and-swap wrapper,
a periodic-POSIX-timer lifecycle (`startPLC` / `stopPLC` / `PLC_SetTimer` /
`PLC_timer_notify`), and a condition-variable rendezvous used by the debugger
(`InitiateDebugTransfer` / `WaitDebugData` / `AbortDebug`).

We embed it shallowly:
* the process-visible state (timer handle, armed `itimerspec`, installed
  signal handler, `Ttick`, `__tick`, `__debug_tick`, and counters for the
  externally observable calls) is an explicit `PLCState`;
* each C function becomes a Lean function on that state, translated
  line-by-line from the source.  External collaborators (`__init`,
  `__cleanup`, `__run`) are opaque: their results are parameters and their
  invocations are counted/logged, exactly as the C code treats them;
* OS calls are modelled with their documented POSIX/Linux behaviour:
  `timer_create` allocates the handle (its success is a parameter, since the
  C code ignores its result), `timer_settime` / `timer_delete` on an invalid
  timer id fail with `EINVAL` and change nothing — the C code discards these
  results, so the failures are absorbed;
* C `long long` division by `1000000000` is truncated division, i.e.
  `Int.tdiv` / `Int.tmod`;
* for the mutex-discipline claim, each rendezvous function is additionally
  embedded as its literal sequence of primitive events (lock, unlock,
  cond-wait, broadcast, tick read/write), so that "access occurs while
  holding the mutex" is a decidable property of the event trace.
-/

namespace PLCLinux

/-! ## AtomicCompareExchange -/

/-- `AtomicCompareExchange(atomicvar, compared, exchange)` from the source:
`return __sync_val_compare_and_swap(atomicvar, compared, exchange);`.
The result pair is (returned value, value stored in `*atomicvar` after the
call): GCC's `__sync_val_compare_and_swap` returns the prior contents and
stores `exchange` exactly when the prior contents equal `compared`. -/
def AtomicCompareExchange (atomicvar compared exchange : Int) : Int × Int :=
  if atomicvar = compared then (atomicvar, exchange) else (atomicvar, atomicvar)

/-! ## The timer decomposition (`PLC_SetTimer`) -/

/-- `struct itimerspec`: initial expiration (`it_value`) and period
(`it_interval`), each split into seconds and nanoseconds. -/
structure Itimerspec where
  it_value_sec : Int
  it_value_nsec : Int
  it_interval_sec : Int
  it_interval_nsec : Int
  deriving DecidableEq, Repr

/-- The all-zero `itimerspec` produced by `memset(&timerValues, 0, ...)`. -/
def Itimerspec.zero : Itimerspec :=
  { it_value_sec := 0, it_value_nsec := 0, it_interval_sec := 0, it_interval_nsec := 0 }

/-- Modelled from the spec: POSIX `timer_settime` semantics (the call itself
is outside `src/`) — an `it_value` of zero disarms the timer. -/
def Itimerspec.isDisarmed (ts : Itimerspec) : Prop :=
  ts.it_value_sec = 0 ∧ ts.it_value_nsec = 0

/-- Modelled from the spec: POSIX `timer_settime` semantics — an
`it_interval` of zero means the timer does not reload (no recurrence). -/
def Itimerspec.noRecurrence (ts : Itimerspec) : Prop :=
  ts.it_interval_sec = 0 ∧ ts.it_interval_nsec = 0

/-- The `itimerspec` computed by `PLC_SetTimer(next, period)`: both 64-bit
nanosecond arguments are decomposed with C `long long` division and modulus
by `1000000000` (`lldiv` and `/`,`%` agree: both truncate toward zero, hence
`Int.tdiv` / `Int.tmod`). -/
def mkItimerspec (next period : Int) : Itimerspec :=
  { it_value_sec := next.tdiv 1000000000
    it_value_nsec := next.tmod 1000000000
    it_interval_sec := period.tdiv 1000000000
    it_interval_nsec := period.tmod 1000000000 }

/-! ## Process state -/

/-- The process-visible state manipulated by the runtime glue.  Counter
fields record the externally observable calls the C code makes
(`__cleanup()`, `pthread_cond_broadcast`, successful `timer_delete`
deallocations, `PLC_SetTimer` invocations). -/
structure PLCState where
  /-- whether `PLC_timer` currently names a live kernel timer -/
  timerAllocated : Bool
  /-- the `itimerspec` last successfully programmed into the timer -/
  armed : Itimerspec
  /-- global `long long Ttick` -/
  Ttick : Int
  /-- whether `signal(SIGINT, catch_signal)` has been installed -/
  sigintInstalled : Bool
  /-- external cycle counter `__tick` -/
  tick : Int
  /-- `static int __debug_tick` -/
  debug_tick : Int
  /-- number of `PLC_SetTimer` invocations -/
  setTimerCalls : Nat
  /-- number of times a live timer was actually deallocated -/
  timerDeletions : Nat
  /-- number of `__cleanup()` invocations -/
  cleanupCalls : Nat
  /-- number of `pthread_cond_broadcast(&wait_cond)` invocations -/
  broadcasts : Nat
  deriving DecidableEq, Repr

/-- A fresh process state: no timer, nothing armed, counters at zero. -/
def freshState : PLCState :=
  { timerAllocated := false, armed := Itimerspec.zero, Ttick := 0
    sigintInstalled := false, tick := 0, debug_tick := 0
    setTimerCalls := 0, timerDeletions := 0, cleanupCalls := 0, broadcasts := 0 }

/-! ## OS timer calls -/

/-- `timer_create(CLOCK_REALTIME, &sigev, &PLC_timer)`.  The C code ignores
the result, so success is a parameter `ok`: on success the handle becomes
live, on failure nothing changes. -/
def timer_create (ok : Bool) (s : PLCState) : PLCState :=
  if ok then { s with timerAllocated := true } else s

/-- `timer_settime(PLC_timer, 0, &timerValues, NULL)`: programs a live timer;
on a dead/invalid timer id it fails with `EINVAL` and changes nothing (the C
code discards the result, absorbing the failure). -/
def timer_settime (ts : Itimerspec) (s : PLCState) : PLCState :=
  if s.timerAllocated then { s with armed := ts } else s

/-- `timer_delete(PLC_timer)`: deallocates a live timer; on a dead/invalid
timer id it fails with `EINVAL` and deallocates nothing (the C code discards
the result, absorbing the failure), so a repeated delete never frees twice. -/
def timer_delete (s : PLCState) : PLCState :=
  if s.timerAllocated then
    { s with timerAllocated := false, timerDeletions := s.timerDeletions + 1 }
  else s

/-- `PLC_SetTimer(next, period)`: zeroes an `itimerspec`, fills it with the
quotient/remainder decomposition of `next` and `period`, and calls
`timer_settime`. -/
def PLC_SetTimer (next period : Int) (s : PLCState) : PLCState :=
  timer_settime (mkItimerspec next period) { s with setTimerCalls := s.setTimerCalls + 1 }

/-! ## Lifecycle -/

/-- Modelled from the spec: the `maxval` macro used by `startPLC` is defined
outside `src/` (in the generated main); per the spec it floors the configured
tick time at a positive minimum of one unit, i.e. it is the two-argument
maximum. -/
def maxval (a b : Int) : Int := max a b

/-- `__cleanup()` — opaque external collaborator; we record the call. -/
def cleanupRuntime (s : PLCState) : PLCState :=
  { s with cleanupCalls := s.cleanupCalls + 1 }

/-- `AbortDebug()`: `__debug_tick = -1;` then
`pthread_cond_broadcast(&wait_cond);` (the surrounding mutex lock/unlock is
commented out in the source). -/
def AbortDebug (s : PLCState) : PLCState :=
  { s with debug_tick := -1, broadcasts := s.broadcasts + 1 }

/-- `InitiateDebugTransfer()`: `__debug_tick = __tick;` then
`pthread_cond_broadcast(&wait_cond);` (the surrounding mutex lock/unlock is
commented out in the source). -/
def InitiateDebugTransfer (s : PLCState) : PLCState :=
  { s with debug_tick := s.tick, broadcasts := s.broadcasts + 1 }

/-- `WaitDebugData()`: the value the woken observer returns —
`return __debug_tick;`, read after the mutex has been unlocked. -/
def WaitDebugData (s : PLCState) : Int :=
  s.debug_tick

/-- `startPLC(argc, argv)`.  `createOk` is the (ignored) success of
`timer_create`; `initResult` is the value returned by the external
`__init(argc, argv)`.  Returns the C return value paired with the new
state, following the source line by line:
`Ttick = 1000000 * maxval(common_ticktime__, 1);` then `timer_create`, then
if `__init` returned 0, `PLC_SetTimer(Ttick, Ttick)` and
`signal(SIGINT, catch_signal)` and `return 0`; else `return 1`. -/
def startPLC (createOk : Bool) (initResult : Int) (common_ticktime : Int)
    (s : PLCState) : Int × PLCState :=
  let s := { s with Ttick := 1000000 * maxval common_ticktime 1 }
  let s := timer_create createOk s
  if initResult = 0 then
    let s := PLC_SetTimer s.Ttick s.Ttick s
    let s := { s with sigintInstalled := true }
    (0, s)
  else
    (1, s)

/-- `stopPLC()`: `PLC_SetTimer(0,0); timer_delete(PLC_timer); __cleanup();
AbortDebug();`. -/
def stopPLC (s : PLCState) : PLCState :=
  AbortDebug (cleanupRuntime (timer_delete (PLC_SetTimer 0 0 s)))

/-! ## The timer-notification callback -/

/-- The effects `PLC_timer_notify` can perform. -/
inductive NotifyEvent where
  /-- `PLC_GetTime(&__CURRENT_TIME)` — store the current time into the
  globally visible current-time variable -/
  | stampCurrentTime
  /-- `__run()` — invoke the external run-cycle collaborator -/
  | runCycle
  deriving DecidableEq, Repr

/-- State touched by the notification callback: the global
`__CURRENT_TIME` and a log of the effects performed, in order. -/
structure NotifyState where
  current_time : Int
  events : List NotifyEvent
  deriving DecidableEq, Repr

/-- `PLC_GetTime(CURRENT_TIME)`: `clock_gettime(CLOCK_REALTIME, ...)` —
stores the clock reading `now` into the pointed-to time variable. -/
def PLC_GetTime (now : Int) (s : NotifyState) : NotifyState :=
  { current_time := now, events := s.events ++ [NotifyEvent.stampCurrentTime] }

/-- `__run()` — opaque external collaborator; we log the invocation. -/
def runCycleCollaborator (s : NotifyState) : NotifyState :=
  { s with events := s.events ++ [NotifyEvent.runCycle] }

/-- `PLC_timer_notify(sigval_t val)`: `PLC_GetTime(&__CURRENT_TIME);
__run();` — the whole body of the callback. -/
def PLC_timer_notify (now : Int) (s : NotifyState) : NotifyState :=
  runCycleCollaborator (PLC_GetTime now s)

/-! ## Event traces of the rendezvous operations (mutex discipline) -/

/-- Primitive events of the rendezvous functions, read off the (uncommented)
statements of the source. -/
inductive DbgEvent where
  /-- `pthread_mutex_lock(&wait_mutex)` -/
  | lockMutex
  /-- `pthread_mutex_unlock(&wait_mutex)` -/
  | unlockMutex
  /-- `pthread_cond_wait(&wait_cond, &wait_mutex)` -/
  | condWait
  /-- `pthread_cond_broadcast(&wait_cond)` -/
  | broadcastCond
  /-- a store to `__debug_tick` -/
  | writeTick (v : Int)
  /-- a load of `__debug_tick` -/
  | readTick
  deriving DecidableEq, Repr

/-- Events of `AbortDebug`, in source order: the lock/unlock around the
broadcast is commented out, so only the store and the broadcast remain. -/
def AbortDebugEvents : List DbgEvent :=
  [DbgEvent.writeTick (-1), DbgEvent.broadcastCond]

/-- Events of `InitiateDebugTransfer` when `__tick` holds `t`: the
lock/unlock around the broadcast is commented out, so only the store and the
broadcast remain. -/
def InitiateDebugTransferEvents (t : Int) : List DbgEvent :=
  [DbgEvent.writeTick t, DbgEvent.broadcastCond]

/-- Events of `WaitDebugData`, in source order: lock, cond-wait, unlock, and
only then the load of `__debug_tick` for the `return`. -/
def WaitDebugDataEvents : List DbgEvent :=
  [DbgEvent.lockMutex, DbgEvent.condWait, DbgEvent.unlockMutex, DbgEvent.readTick]

/-- Whether the calling thread holds `wait_mutex` after an event, given
whether it held it before.  `pthread_cond_wait` releases the mutex while
blocked but has reacquired it by the time it returns, so it preserves the
held flag. -/
def heldAfter (h : Bool) : DbgEvent → Bool
  | DbgEvent.lockMutex => true
  | DbgEvent.unlockMutex => false
  | _ => h

/-- Whether an event is an access (load or store) of `__debug_tick`. -/
def isTickAccess : DbgEvent → Bool
  | DbgEvent.writeTick _ => true
  | DbgEvent.readTick => true
  | _ => false

/-- `accessesGuarded h tr`: starting with mutex-held flag `h`, every access
of `__debug_tick` in the trace `tr` happens while the mutex is held. -/
def accessesGuarded : Bool → List DbgEvent → Bool
  | _, [] => true
  | h, e :: tr => (!isTickAccess e || h) && accessesGuarded (heldAfter h e) tr

/-- `accessesUnguarded h tr`: starting with mutex-held flag `h`, every access
of `__debug_tick` in the trace `tr` happens while the mutex is NOT held. -/
def accessesUnguarded : Bool → List DbgEvent → Bool
  | _, [] => true
  | h, e :: tr => (!isTickAccess e || !h) && accessesUnguarded (heldAfter h e) tr

/-- `condWaitGuarded h tr`: every `pthread_cond_wait` in the trace happens
while the mutex is held (a POSIX requirement the code does respect). -/
def condWaitGuarded : Bool → List DbgEvent → Bool
  | _, [] => true
  | h, e :: tr =>
    (match e with
     | DbgEvent.condWait => h
     | _ => true) && condWaitGuarded (heldAfter h e) tr

/-- A sequence of publishes: `ts` lists the successive values the external
counter `__tick` holds at each `InitiateDebugTransfer` call. -/
def publishSeq (ts : List Int) (s : PLCState) : PLCState :=
  ts.foldl (fun s t => InitiateDebugTransfer { s with tick := t }) s

/-! ## Theorems -/

/-- C10: `AtomicCompareExchange(atomicvar, compared, exchange)` always
returns the value stored at `*atomicvar` before the call, writes `exchange`
into `*atomicvar` when that prior value equals `compared`, and leaves
`*atomicvar` unchanged otherwise. -/
theorem AtomicCompareExchange_spec (v compared exchange : Int) :
    (AtomicCompareExchange v compared exchange).1 = v ∧
    (v = compared → (AtomicCompareExchange v compared exchange).2 = exchange) ∧
    (v ≠ compared → (AtomicCompareExchange v compared exchange).2 = v) := by
  unfold AtomicCompareExchange
  by_cases h : v = compared <;> simp [h]

/-- Witness for C10 at `v = 5`, `compared = 5`, `exchange = 9`. -/
theorem AtomicCompareExchange_spec_witness :
    (AtomicCompareExchange 5 5 9).1 = 5 ∧
    ((5 : Int) = 5 → (AtomicCompareExchange 5 5 9).2 = 9) ∧
    ((5 : Int) ≠ 5 → (AtomicCompareExchange 5 5 9).2 = 5) :=
  AtomicCompareExchange_spec 5 5 9

/-- C6: `PLC_SetTimer` decomposes its 64-bit nanosecond arguments by exact
integer quotient/remainder over `1000000000` into whole seconds plus a
nanosecond remainder in `[0, 10^9)`, for all values up to `2^63 - 1`; and
`next = 0`, `period = 0` yields the all-zero `itimerspec`, which disarms the
timer with no recurrence. -/
theorem PLC_SetTimer_decomposition (next period : Int)
    (hn0 : 0 ≤ next) (hn1 : next ≤ 2 ^ 63 - 1)
    (hp0 : 0 ≤ period) (hp1 : period ≤ 2 ^ 63 - 1) :
    (mkItimerspec next period).it_value_sec * 1000000000
        + (mkItimerspec next period).it_value_nsec = next ∧
    0 ≤ (mkItimerspec next period).it_value_nsec ∧
    (mkItimerspec next period).it_value_nsec < 1000000000 ∧
    (mkItimerspec next period).it_interval_sec * 1000000000
        + (mkItimerspec next period).it_interval_nsec = period ∧
    0 ≤ (mkItimerspec next period).it_interval_nsec ∧
    (mkItimerspec next period).it_interval_nsec < 1000000000 ∧
    mkItimerspec 0 0 = Itimerspec.zero ∧
    (mkItimerspec 0 0).isDisarmed ∧ (mkItimerspec 0 0).noRecurrence := by
  refine ⟨?_, Int.tmod_nonneg _ hn0, Int.tmod_lt_of_pos next (by norm_num),
    ?_, Int.tmod_nonneg _ hp0, Int.tmod_lt_of_pos period (by norm_num),
    by decide, ⟨by decide, by decide⟩, ⟨by decide, by decide⟩⟩
  · show next.tdiv 1000000000 * 1000000000 + next.tmod 1000000000 = next
    rw [mul_comm]
    exact Int.tdiv_add_tmod next 1000000000
  · show period.tdiv 1000000000 * 1000000000 + period.tmod 1000000000 = period
    rw [mul_comm]
    exact Int.tdiv_add_tmod period 1000000000

/-- Witness for C6 at `next = 1500000000`, `period = 999999999` (the spec's
own examples: seconds 1 / remainder 500000000, seconds 0 / remainder
999999999). -/
theorem PLC_SetTimer_decomposition_witness :
    ((0 : Int) ≤ 1500000000 ∧ (1500000000 : Int) ≤ 2 ^ 63 - 1 ∧
     (0 : Int) ≤ 999999999 ∧ (999999999 : Int) ≤ 2 ^ 63 - 1) ∧
    ((mkItimerspec 1500000000 999999999).it_value_sec * 1000000000
        + (mkItimerspec 1500000000 999999999).it_value_nsec = 1500000000 ∧
     0 ≤ (mkItimerspec 1500000000 999999999).it_value_nsec ∧
     (mkItimerspec 1500000000 999999999).it_value_nsec < 1000000000 ∧
     (mkItimerspec 1500000000 999999999).it_interval_sec * 1000000000
        + (mkItimerspec 1500000000 999999999).it_interval_nsec = 999999999 ∧
     0 ≤ (mkItimerspec 1500000000 999999999).it_interval_nsec ∧
     (mkItimerspec 1500000000 999999999).it_interval_nsec < 1000000000 ∧
     mkItimerspec 0 0 = Itimerspec.zero ∧
     (mkItimerspec 0 0).isDisarmed ∧ (mkItimerspec 0 0).noRecurrence) ∧
    (mkItimerspec 1500000000 999999999).it_value_sec = 1 ∧
    (mkItimerspec 1500000000 999999999).it_value_nsec = 500000000 ∧
    (mkItimerspec 1500000000 999999999).it_interval_sec = 0 ∧
    (mkItimerspec 1500000000 999999999).it_interval_nsec = 999999999 :=
  ⟨⟨by norm_num, by norm_num, by norm_num, by norm_num⟩,
   PLC_SetTimer_decomposition 1500000000 999999999
     (by norm_num) (by norm_num) (by norm_num) (by norm_num),
   by decide, by decide, by decide, by decide⟩

/-- C2: calling `stopPLC` twice in succession never faults and does not
double-free the timer: the first call releases the timer resource (exactly
one deallocation when a timer was live), and the second call's
`timer_settime` / `timer_delete` on the now-dead handle fail with `EINVAL`
and are absorbed — the timer stays released and no further deallocation
happens.  All operations are total (no fault) in the model because the C
code discards every OS result. -/
theorem stopPLC_idempotent (s : PLCState) :
    (stopPLC s).timerAllocated = false ∧
    (stopPLC (stopPLC s)).timerAllocated = false ∧
    (stopPLC s).timerDeletions
        = s.timerDeletions + (if s.timerAllocated then 1 else 0) ∧
    (stopPLC (stopPLC s)).timerDeletions = (stopPLC s).timerDeletions := by
  unfold stopPLC AbortDebug cleanupRuntime timer_delete PLC_SetTimer timer_settime
  by_cases h : s.timerAllocated <;> simp [h]

/-- C3 counterexample: start from a fresh state, let `timer_create` succeed
and `__init` return 1.  The claim's conjunction fails: `startPLC` does
return nonzero, never calls `PLC_SetTimer` and installs no handler, but the
timer resource HAS been allocated (`timer_create` runs before `__init` is
consulted), refuting "no timer resource was ever allocated". -/
theorem startPLC_initFailure_counterexample :
    ¬ ((startPLC true 1 100 freshState).1 ≠ 0 ∧
       (startPLC true 1 100 freshState).2.setTimerCalls = freshState.setTimerCalls ∧
       (startPLC true 1 100 freshState).2.sigintInstalled = false ∧
       (startPLC true 1 100 freshState).2.timerAllocated = false) := by
  decide

/-- C3 amended: if the external `__init` returns a non-zero status,
`startPLC` returns 1 (non-zero), `PLC_SetTimer` is never called, the armed
timer specification is unchanged, and no interrupt handler is installed —
but the timer resource has already been allocated by the unconditional
`timer_create` that precedes the `__init` check (when that call succeeded),
so it is a live timer left behind, not "never allocated"; a subsequent
delete releases it safely. -/
theorem startPLC_initFailure (createOk : Bool) (r c : Int) (s : PLCState)
    (h : r ≠ 0) :
    (startPLC createOk r c s).1 = 1 ∧
    (startPLC createOk r c s).2.setTimerCalls = s.setTimerCalls ∧
    (startPLC createOk r c s).2.armed = s.armed ∧
    (startPLC createOk r c s).2.sigintInstalled = s.sigintInstalled ∧
    (startPLC createOk r c s).2.timerAllocated
        = (createOk || s.timerAllocated) := by
  unfold startPLC timer_create
  by_cases hc : createOk <;> simp [h, hc]

/-- Witness for C3's amended theorem at `createOk = true`, `__init` result
1, tick time 100, fresh state. -/
theorem startPLC_initFailure_witness :
    (startPLC true 1 100 freshState).1 = 1 ∧
    (startPLC true 1 100 freshState).2.setTimerCalls = freshState.setTimerCalls ∧
    (startPLC true 1 100 freshState).2.armed = freshState.armed ∧
    (startPLC true 1 100 freshState).2.sigintInstalled = freshState.sigintInstalled ∧
    (startPLC true 1 100 freshState).2.timerAllocated
        = (true || freshState.timerAllocated) :=
  startPLC_initFailure true 1 100 freshState (by decide)

/-- C7 counterexample: `timer_create` fails (`createOk = false`) and
`__init` succeeds; `startPLC` nevertheless returns 0, refuting "the failure
is surfaced to the caller as a non-zero start result". -/
theorem startPLC_timer_create_failure_counterexample :
    ¬ ((startPLC false 0 100 freshState).1 ≠ 0) := by
  decide

/-- C7 amended: `startPLC` ignores the result of `timer_create` entirely —
its return value depends only on `__init`: 0 when `__init` returns 0 (even
when the OS could not allocate the timer, in which case the subsequent
`timer_settime` fails silently and nothing is armed), 1 otherwise. -/
theorem startPLC_result_ignores_timer_create (createOk : Bool) (r c : Int)
    (s : PLCState) :
    (startPLC createOk r c s).1 = (if r = 0 then 0 else 1) := by
  unfold startPLC
  by_cases h : r = 0 <;> simp [h]

/-- C8: for every configured tick time `c`, `startPLC` computes
`Ttick = 1000000 * max c 1`, which is strictly positive, and on successful
init (with the timer allocated) arms the timer with initial delay and
period both equal to `Ttick`. -/
theorem startPLC_Ttick_arming (createOk : Bool) (r c : Int) (s : PLCState)
    (hr : r = 0) (hc : createOk = true) :
    (startPLC createOk r c s).2.Ttick = 1000000 * max c 1 ∧
    0 < (startPLC createOk r c s).2.Ttick ∧
    (startPLC createOk r c s).2.armed
        = mkItimerspec (1000000 * max c 1) (1000000 * max c 1) := by
  subst hr hc
  have hpos : (0 : Int) < 1000000 * max c 1 := by
    have h1 := mul_le_mul_of_nonneg_left (le_max_right c 1)
      (by norm_num : (0 : Int) ≤ 1000000)
    linarith
  have hT : (startPLC true 0 c s).2.Ttick = 1000000 * max c 1 := by
    simp [startPLC, maxval, timer_create, PLC_SetTimer, timer_settime]
  refine ⟨hT, ?_, ?_⟩
  · rw [hT]
    exact hpos
  · simp [startPLC, maxval, timer_create, PLC_SetTimer, timer_settime]

/-- Witness for C8 at tick time 100, fresh state. -/
theorem startPLC_Ttick_arming_witness :
    (startPLC true 0 100 freshState).2.Ttick = 1000000 * max 100 1 ∧
    0 < (startPLC true 0 100 freshState).2.Ttick ∧
    (startPLC true 0 100 freshState).2.armed
        = mkItimerspec (1000000 * max 100 1) (1000000 * max 100 1) :=
  startPLC_Ttick_arming true 0 100 freshState rfl rfl

/-- C4: publishes are coalesced into the single slot `__debug_tick`: after
any sequence of `InitiateDebugTransfer` calls with no intervening wait, the
stored debug tick equals the value of `__tick` at the last publish, and the
next `WaitDebugData`, once woken, returns exactly that latest value (so
after publishing 5 then 7 it returns 7, never 5). -/
theorem publish_coalesced (ts : List Int) (t : Int) (s : PLCState) :
    (publishSeq (ts ++ [t]) s).debug_tick = t ∧
    WaitDebugData (publishSeq (ts ++ [t]) s) = t := by
  have h : (publishSeq (ts ++ [t]) s).debug_tick = t := by
    simp [publishSeq, List.foldl_append, InitiateDebugTransfer]
  exact ⟨h, h⟩

/-- C5: after `AbortDebug` the stored debug tick is the sentinel `-1`,
which is negative and distinct from every valid cycle number `t ≥ 0`; and a
second `AbortDebug` leaves the stored tick unchanged (still the sentinel). -/
theorem AbortDebug_sentinel (s : PLCState) (t : Int) (ht : 0 ≤ t) :
    (AbortDebug s).debug_tick = -1 ∧
    (AbortDebug s).debug_tick < 0 ∧
    (AbortDebug s).debug_tick ≠ t ∧
    (AbortDebug (AbortDebug s)).debug_tick = (AbortDebug s).debug_tick := by
  refine ⟨rfl, by simp [AbortDebug], ?_, rfl⟩
  intro hEq
  simp only [AbortDebug] at hEq
  omega

/-- Witness for C5 at the fresh state and cycle number 0. -/
theorem AbortDebug_sentinel_witness :
    (AbortDebug freshState).debug_tick = -1 ∧
    (AbortDebug freshState).debug_tick < 0 ∧
    (AbortDebug freshState).debug_tick ≠ 0 ∧
    (AbortDebug (AbortDebug freshState)).debug_tick
        = (AbortDebug freshState).debug_tick :=
  AbortDebug_sentinel freshState 0 (by decide)

/-- C9: on every timer fire, `PLC_timer_notify` first stores the current
time into the globally visible current-time variable and only then invokes
the run-cycle collaborator: its effect log is exactly one time-stamp
followed by exactly one run-cycle invocation (no other effects), and the
current-time variable already holds `now` when the run cycle starts. -/
theorem PLC_timer_notify_stamp_then_run (now : Int) (s : NotifyState) :
    (PLC_timer_notify now s).events
        = s.events ++ [NotifyEvent.stampCurrentTime, NotifyEvent.runCycle] ∧
    (PLC_GetTime now s).current_time = now ∧
    (PLC_timer_notify now s).current_time = now := by
  refine ⟨?_, rfl, rfl⟩
  simp [PLC_timer_notify, runCycleCollaborator, PLC_GetTime]

/-- C1 counterexample: the debug-tick accesses are NOT all performed under
`wait_mutex`.  Entering each operation without the mutex (as its callers
do), already `InitiateDebugTransfer`'s store — and likewise `AbortDebug`'s
store and the load in `WaitDebugData`, which happens after the unlock —
violates the guard discipline, so the conjunction over the three traces is
false. -/
theorem debug_tick_guarded_counterexample :
    ¬ (accessesGuarded false (InitiateDebugTransferEvents 5) = true ∧
       accessesGuarded false WaitDebugDataEvents = true ∧
       accessesGuarded false AbortDebugEvents = true) := by
  decide

/-- C1 amended: no access of `__debug_tick` in the three rendezvous
operations happens while `wait_mutex` is held — `InitiateDebugTransfer` and
`AbortDebug` write it with the surrounding lock/unlock commented out, and
`WaitDebugData` reads it only after unlocking; the mutex is held only
around `pthread_cond_wait` itself (as POSIX requires). -/
theorem debug_tick_unguarded (t : Int) :
    accessesUnguarded false (InitiateDebugTransferEvents t) = true ∧
    accessesUnguarded false AbortDebugEvents = true ∧
    accessesUnguarded false WaitDebugDataEvents = true ∧
    condWaitGuarded false WaitDebugDataEvents = true :=
  ⟨rfl, rfl, rfl, rfl⟩

end PLCLinux
